import Mathlib

/-!
Shallow embedding of the angple authentication core: refresh-token store with
rotation and reuse detection, server-side session store with sliding expiry,
OAuth state channel, provider profile parsing, the OAuth callback handler,
the social-registration action and the cookie-based request authenticator.
Timestamps are integers in milliseconds; persistent tables are lists of rows
in insertion order (SQL SELECT with LIMIT 1 is the first list match, INSERT
appends, UPDATE and DELETE act on every matching row).
-/

namespace Angple

/-- SHA-256 digest of a value, modelled as a deterministic, collision-free
one-way digest: the digest value is represented by its preimage, which makes
injectivity definitional while keeping table lookups executable. -/
structure Sha256 (α : Type) where
  digestOf : α
deriving DecidableEq, Repr

/-- A signed JWT, modelled structurally: registered and custom claims plus the
secret it was signed with. Verification against a secret succeeds exactly when
the token was signed with that secret. Optional fields model claims that may
be absent from the payload; the trailing optional fields are the historical
field-name variants accepted by the lax legacy verifier. -/
structure Jwt where
  sub : String
  nickname : Option String := none
  level : Option Int := none
  email : Option String := none
  iat : Int
  exp : Int
  iss : Option String := none
  secret : String
  mb_id : Option String := none
  user_id : Option String := none
  mb_name : Option String := none
  mb_nick : Option String := none
  mb_level : Option Int := none
  mb_email : Option String := none
deriving DecidableEq, Repr

/-- Payload shape returned by the verifiers (jwt.ts JwtPayload). -/
structure JwtPayload where
  sub : String
  nickname : String
  level : Int
  email : String
deriving DecidableEq, Repr

/-- Server-held signing secret (process.env.JWT_SECRET). -/
def JWT_SECRET : String := "JWT_SECRET"

/-- Legacy signing secret (process.env.DAMOANG_JWT_SECRET). -/
def DAMOANG_JWT_SECRET : String := "DAMOANG_JWT_SECRET"

/-- JavaScript string disjunction: a || b is b when a is the empty string. -/
def jsOr (a b : String) : String := if a = "" then b else a

/-- JavaScript number disjunction: a || b is b when a is zero. -/
def jsOrInt (a b : Int) : Int := if a = 0 then b else a

/-- Strict verification (jwt.ts verifyToken): signature with JWT_SECRET,
issuer angple, and expiry; any failure yields none. -/
def verifyToken (token : Jwt) (now : Int) : Option JwtPayload :=
  if token.secret = JWT_SECRET ∧ token.iss = some "angple" ∧ now < token.exp then
    some { sub := token.sub
         , nickname := token.nickname.getD ""
         , level := token.level.getD 0
         , email := token.email.getD "" }
  else none

/-- Lax legacy verification (jwt.ts verifyTokenLax): DAMOANG_JWT_SECRET, no
issuer check, several historical field names accepted for each claim. -/
def verifyTokenLax (token : Jwt) (now : Int) : Option JwtPayload :=
  if token.secret = DAMOANG_JWT_SECRET ∧ now < token.exp then
    let sub := jsOr (token.mb_id.getD "") (jsOr token.sub (token.user_id.getD ""))
    if sub = "" then none
    else
      some { sub := sub
           , nickname := jsOr (token.mb_name.getD "")
               (jsOr (token.mb_nick.getD "") (token.nickname.getD ""))
           , level := jsOrInt (token.mb_level.getD 0) (jsOrInt (token.level.getD 0) 0)
           , email := jsOr (token.mb_email.getD "") (token.email.getD "") }
  else none

/-- Refresh token lifetime in milliseconds (token rotation layer, 7 days). -/
def REFRESH_TOKEN_TTL_MS : Int := 7 * 24 * 60 * 60 * 1000

/-- SHA-256 hash of a (serialized) refresh token (token-store.ts hashToken). -/
def hashToken (token : Jwt) : Sha256 Jwt := ⟨token⟩

/-- A row of the angple_refresh_tokens table. -/
structure RefreshTokenRow where
  token_hash : Sha256 Jwt
  mb_id : String
  family_id : String
  created_at : Int
  expires_at : Int
  revoked_at : Option Int
deriving DecidableEq, Repr

/-- INSERT of a freshly issued token row (token-store.ts storeRefreshToken). -/
def storeRefreshToken (db : List RefreshTokenRow) (tokenHash : Sha256 Jwt)
    (mbId familyId : String) (expiresAt now : Int) : List RefreshTokenRow :=
  db ++ [{ token_hash := tokenHash, mb_id := mbId, family_id := familyId,
           created_at := now, expires_at := expiresAt, revoked_at := none }]

/-- Revoke one token (token-store.ts revokeToken): set revoked_at on every
row with this hash whose revoked_at is still null. -/
def revokeToken (db : List RefreshTokenRow) (tokenHash : Sha256 Jwt) (now : Int) :
    List RefreshTokenRow :=
  db.map fun r =>
    if r.token_hash = tokenHash ∧ r.revoked_at = none then
      { r with revoked_at := some now }
    else r

/-- Revoke a whole family (token-store.ts revokeTokenFamily): set revoked_at
on every row of the family whose revoked_at is still null. -/
def revokeTokenFamily (db : List RefreshTokenRow) (familyId : String) (now : Int) :
    List RefreshTokenRow :=
  db.map fun r =>
    if r.family_id = familyId ∧ r.revoked_at = none then
      { r with revoked_at := some now }
    else r

/-- Validation lookup (token-store.ts findValidToken). Returns the identity
attached to the hash together with the table after side effects: an absent
hash changes nothing; a revoked row triggers family-wide revocation before
the expiry check is ever reached; an expired row yields none. -/
def findValidToken (db : List RefreshTokenRow) (tokenHash : Sha256 Jwt) (now : Int) :
    Option (String × String) × List RefreshTokenRow :=
  match db.find? (fun r => r.token_hash == tokenHash) with
  | none => (none, db)
  | some row =>
    if row.revoked_at.isSome then
      (none, revokeTokenFamily db row.family_id now)
    else if now > row.expires_at then
      (none, db)
    else
      (some (row.mb_id, row.family_id), db)

/-- C1: validating the hash of a stored row whose revokedAt is non-null
returns none and revokes the entire family: the resulting table is exactly
revokeTokenFamily of the old table, so every row with the same familyId and
null revokedAt gets revokedAt set; this happens with no hypothesis on the
expiry of the row, i.e. the reuse check precedes the expiry check; and a
hash that matches no row returns none and leaves the table unchanged. -/
theorem c1_findValidToken_reuse_detection
    (db : List RefreshTokenRow) (tokenHash : Sha256 Jwt) (now : Int) :
    (db.find? (fun r => r.token_hash == tokenHash) = none →
      findValidToken db tokenHash now = (none, db)) ∧
    (∀ row, db.find? (fun r => r.token_hash == tokenHash) = some row →
      row.revoked_at.isSome →
      findValidToken db tokenHash now = (none, revokeTokenFamily db row.family_id now) ∧
      ∀ r ∈ db, r.family_id = row.family_id → r.revoked_at = none →
        { r with revoked_at := some now } ∈ (findValidToken db tokenHash now).2) := by
  refine ⟨fun h => by simp [findValidToken, h], fun row hfind hrev => ?_⟩
  have hval : findValidToken db tokenHash now
      = (none, revokeTokenFamily db row.family_id now) := by
    simp [findValidToken, hfind, hrev]
  refine ⟨hval, fun r hr hfam hnull => ?_⟩
  rw [hval]
  simp only [revokeTokenFamily, List.mem_map]
  exact ⟨r, hr, by simp [hfam, hnull]⟩

/-- Sample token used by concrete witnesses. -/
def sampleJwt : Jwt :=
  { sub := "u1", iat := 0, exp := REFRESH_TOKEN_TTL_MS, iss := some "angple",
    secret := JWT_SECRET }

/-- Sample revoked refresh-token row used by concrete witnesses. -/
def sampleRevokedRow : RefreshTokenRow :=
  { token_hash := hashToken sampleJwt, mb_id := "u1", family_id := "fam1",
    created_at := 0, expires_at := REFRESH_TOKEN_TTL_MS, revoked_at := some 5 }

/-- Sample live sibling row in the same family, used by concrete witnesses. -/
def sampleLiveRow : RefreshTokenRow :=
  { token_hash := hashToken { sampleJwt with iat := 1 }, mb_id := "u1",
    family_id := "fam1", created_at := 1, expires_at := REFRESH_TOKEN_TTL_MS,
    revoked_at := none }

theorem c1_findValidToken_reuse_detection_witness :
    findValidToken [sampleRevokedRow, sampleLiveRow] (hashToken sampleJwt) 10
      = (none, revokeTokenFamily [sampleRevokedRow, sampleLiveRow] "fam1" 10) ∧
    { sampleLiveRow with revoked_at := some 10 }
      ∈ (findValidToken [sampleRevokedRow, sampleLiveRow] (hashToken sampleJwt) 10).2 := by
  have h := c1_findValidToken_reuse_detection
    [sampleRevokedRow, sampleLiveRow] (hashToken sampleJwt) 10
  have hfind : ([sampleRevokedRow, sampleLiveRow].find?
      (fun r => r.token_hash == hashToken sampleJwt)) = some sampleRevokedRow := by
    decide
  have h2 := h.2 sampleRevokedRow hfind (by decide)
  exact ⟨h2.1, h2.2 sampleLiveRow (by simp) (by decide) (by decide)⟩

/-- The social login providers supported by the registry (types.ts). -/
inductive SocialProvider where
  | naver
  | kakao
  | google
  | facebook
  | apple
  | twitter
  | payco
deriving DecidableEq, Repr

/-- Contents of the OAuth state cookie (state.ts OAuthStateData). -/
structure OAuthStateData where
  state : String
  provider : SocialProvider
  redirect : String
  timestamp : Int
deriving DecidableEq, Repr

/-- The raw oauth_state cookie value: either a JSON string that parses back
to the stored data, or a string on which JSON.parse throws. -/
inductive StateCookie where
  | stateJson (d : OAuthStateData)
  | malformed
deriving DecidableEq, Repr

/-- Normalized social profile (types.ts OAuthUserProfile). -/
structure OAuthUserProfile where
  provider : SocialProvider
  identifier : String
  displayName : String
  email : String
  photoUrl : String
  profileUrl : String
deriving DecidableEq, Repr

/-- The pending_social_register cookie payload staged for registration. -/
structure PendingProfile where
  provider : SocialProvider
  identifier : String
  email : String
  displayName : String
  photoUrl : String
  profileUrl : String
deriving DecidableEq, Repr

/-- The cookie jar, restricted to the cookies the authentication core reads
and writes; a field is none when the cookie is absent. Token-bearing cookies
hold the token they parse to; a garbage value is a token signed with an
unknown secret and fails verification the same way. -/
structure Cookies where
  oauth_state : Option StateCookie := none
  angple_sid : Option String := none
  angple_csrf : Option String := none
  access_token : Option Jwt := none
  refresh_token : Option Jwt := none
  damoang_jwt : Option Jwt := none
  oauth_pkce : Option String := none
  pending_social_register : Option PendingProfile := none
deriving DecidableEq, Repr

/-- State cookie lifetime in seconds (state.ts STATE_MAX_AGE). -/
def STATE_MAX_AGE : Int := 600

/-- Create an OAuth state (state.ts createOAuthState): the freshly minted
random state string is supplied as the state argument; stores the data in
the oauth_state cookie and returns the state. -/
def createOAuthState (cookies : Cookies) (provider : SocialProvider)
    (redirectUrl : String) (state : String) (now : Int) : String × Cookies :=
  let data : OAuthStateData :=
    { state := state, provider := provider, redirect := redirectUrl, timestamp := now }
  (state, { cookies with oauth_state := some (.stateJson data) })

/-- Validate an OAuth state (state.ts validateOAuthState): missing cookie,
parse failure, state mismatch or expiry yield none with the cookie left in
place; on success the cookie is deleted and the data returned. -/
def validateOAuthState (cookies : Cookies) (state : String) (now : Int) :
    Option OAuthStateData × Cookies :=
  match cookies.oauth_state with
  | none => (none, cookies)
  | some .malformed => (none, cookies)
  | some (.stateJson d) =>
    if d.state ≠ state then (none, cookies)
    else if now - d.timestamp > STATE_MAX_AGE * 1000 then (none, cookies)
    else (some d, { cookies with oauth_state := none })

/-- C2: create followed by validate with the exact same state string succeeds
and deletes the state cookie whenever no more than 600 seconds have elapsed,
so a second validate with the same string returns none; validate returns none
whenever the elapsed time exceeds 600 seconds, whenever the presented string
differs from the stored state, and whenever the cookie is absent or
unparseable, and in each of these failure cases the cookie jar is returned
unchanged, so the cookie is not deleted. -/
theorem c2_oauth_state_single_use
    (cookies : Cookies) (provider : SocialProvider) (redirectUrl state : String)
    (t now now2 : Int) :
    (now - t ≤ STATE_MAX_AGE * 1000 →
      validateOAuthState (createOAuthState cookies provider redirectUrl state t).2 state now
        = (some { state := state, provider := provider, redirect := redirectUrl, timestamp := t },
           { (createOAuthState cookies provider redirectUrl state t).2 with oauth_state := none }) ∧
      validateOAuthState
        { (createOAuthState cookies provider redirectUrl state t).2 with oauth_state := none }
        state now2 = (none,
          { (createOAuthState cookies provider redirectUrl state t).2 with oauth_state := none })) ∧
    (∀ d, cookies.oauth_state = some (.stateJson d) →
      now - d.timestamp > STATE_MAX_AGE * 1000 →
      validateOAuthState cookies state now = (none, cookies)) ∧
    (∀ d, cookies.oauth_state = some (.stateJson d) → d.state ≠ state →
      validateOAuthState cookies state now = (none, cookies)) ∧
    (cookies.oauth_state = none →
      validateOAuthState cookies state now = (none, cookies)) ∧
    (cookies.oauth_state = some .malformed →
      validateOAuthState cookies state now = (none, cookies)) := by
  refine ⟨fun hfresh => ?_, fun d hd hexp => ?_, fun d hd hne => ?_,
    fun h => by simp [validateOAuthState, h], fun h => by simp [validateOAuthState, h]⟩
  · constructor
    · simp only [validateOAuthState, createOAuthState]
      rw [if_neg (by simp), if_neg (by simp; omega)]
    · simp [validateOAuthState, createOAuthState]
  · simp only [validateOAuthState, hd]
    by_cases hst : d.state ≠ state
    · rw [if_pos hst]
    · rw [if_neg hst, if_pos hexp]
  · simp only [validateOAuthState, hd]
    rw [if_pos hne]

theorem c2_oauth_state_single_use_witness :
    ((50000 : Int) - 0 ≤ STATE_MAX_AGE * 1000 ∧
      validateOAuthState (createOAuthState {} .naver "/free" "s1" 0).2 "s1" 50000
        = (some { state := "s1", provider := .naver, redirect := "/free", timestamp := 0 },
           { (createOAuthState {} .naver "/free" "s1" 0).2 with oauth_state := none }) ∧
      validateOAuthState
        { (createOAuthState {} .naver "/free" "s1" 0).2 with oauth_state := none } "s1" 60000
        = (none, { (createOAuthState {} .naver "/free" "s1" 0).2 with oauth_state := none })) ∧
    ((createOAuthState {} .kakao "/" "s2" 0).2.oauth_state
        = some (.stateJson { state := "s2", provider := .kakao, redirect := "/", timestamp := 0 }) ∧
      (601000 : Int) - 0 > STATE_MAX_AGE * 1000 ∧
      validateOAuthState (createOAuthState {} .kakao "/" "s2" 0).2 "s2" 601000
        = (none, (createOAuthState {} .kakao "/" "s2" 0).2)) := by
  refine ⟨⟨by decide, ?_⟩, ⟨by decide, by decide, ?_⟩⟩
  · exact (c2_oauth_state_single_use {} .naver "/free" "s1" 0 50000 60000).1 (by decide)
  · exact (c2_oauth_state_single_use (createOAuthState {} .kakao "/" "s2" 0).2
      .kakao "/" "s2" 0 601000 0).2.1
      { state := "s2", provider := .kakao, redirect := "/", timestamp := 0 } (by decide) (by decide)

/-- Session lifetime in milliseconds (session-store.ts, 30 days). -/
def SESSION_MAX_AGE_MS : Int := 30 * 24 * 60 * 60 * 1000

/-- Sliding-window refresh threshold in milliseconds (session-store.ts, 15 days). -/
def SESSION_REFRESH_THRESHOLD_MS : Int := 15 * 24 * 60 * 60 * 1000

/-- SHA-256 hash of a raw session id (session-store.ts hashSessionId). -/
def hashSessionId (sessionId : String) : Sha256 String := ⟨sessionId⟩

/-- A row of the angple_sessions table. -/
structure SessionRow where
  session_id_hash : Sha256 String
  mb_id : String
  csrf_token : String
  ip : Option String
  user_agent : Option String
  created_at : Int
  last_active_at : Int
  expires_at : Int
deriving DecidableEq, Repr

/-- Session data returned to callers (session-store.ts SessionData). -/
structure SessionData where
  sessionId : String
  mbId : String
  csrfToken : String
  ip : Option String
  userAgent : Option String
  createdAt : Int
  lastActiveAt : Int
  expiresAt : Int
deriving DecidableEq, Repr

/-- Create a session (session-store.ts createSession): the random session id
and CSRF token are supplied as arguments; only the hash of the session id is
persisted, the user agent is truncated to 512 characters, and expiry is
now plus 30 days. -/
def createSession (db : List SessionRow) (mbId : String) (sessionId csrfToken : String)
    (ip userAgent : Option String) (now : Int) :
    (String × String × Int) × List SessionRow :=
  let sessionIdHash := hashSessionId sessionId
  let expiresAt := now + SESSION_MAX_AGE_MS
  ((sessionId, csrfToken, expiresAt),
   db ++ [{ session_id_hash := sessionIdHash, mb_id := mbId, csrf_token := csrfToken,
            ip := ip, user_agent := userAgent.map (fun s => s.take 512),
            created_at := now, last_active_at := now, expires_at := expiresAt }])

/-- Look up and validate a session (session-store.ts getSession): an expired
row is deleted and none returned; an unexpired row extends expiry and bumps
last_active_at past the 15-day threshold, bumps last_active_at alone past 5
minutes, and otherwise writes nothing, returning the session data with the
raw id as passed in. -/
def getSession (db : List SessionRow) (sessionId : String) (now : Int) :
    Option SessionData × List SessionRow :=
  let sessionIdHash := hashSessionId sessionId
  match db.find? (fun r => r.session_id_hash == sessionIdHash) with
  | none => (none, db)
  | some row =>
    if now > row.expires_at then
      (none, db.filter (fun r => !(r.session_id_hash == sessionIdHash)))
    else
      let db1 :=
        if now - row.last_active_at > SESSION_REFRESH_THRESHOLD_MS then
          db.map fun r =>
            if r.session_id_hash = sessionIdHash then
              { r with last_active_at := now, expires_at := now + SESSION_MAX_AGE_MS }
            else r
        else if now - row.last_active_at > 5 * 60 * 1000 then
          db.map fun r =>
            if r.session_id_hash = sessionIdHash then { r with last_active_at := now } else r
        else db
      (some { sessionId := sessionId, mbId := row.mb_id, csrfToken := row.csrf_token,
              ip := row.ip, userAgent := row.user_agent, createdAt := row.created_at,
              lastActiveAt := row.last_active_at, expiresAt := row.expires_at }, db1)

/-- C4: when the stored row for a session id has expiresAt earlier than the
current time, getSession returns none and deletes every row with that hash,
and a subsequent lookup of the same session id at any later time also
returns none (and changes nothing further). -/
theorem c4_expired_session_deleted
    (db : List SessionRow) (sessionId : String) (now now2 : Int) (row : SessionRow)
    (hfind : db.find? (fun r => r.session_id_hash == hashSessionId sessionId) = some row)
    (hexp : now > row.expires_at) :
    getSession db sessionId now
      = (none, db.filter (fun r => !(r.session_id_hash == hashSessionId sessionId))) ∧
    getSession (getSession db sessionId now).2 sessionId now2
      = (none, (getSession db sessionId now).2) := by
  have h1 : getSession db sessionId now
      = (none, db.filter (fun r => !(r.session_id_hash == hashSessionId sessionId))) := by
    simp only [getSession, hfind]
    rw [if_pos hexp]
  refine ⟨h1, ?_⟩
  rw [h1]
  have hnone : (db.filter (fun r => !(r.session_id_hash == hashSessionId sessionId))).find?
      (fun r => r.session_id_hash == hashSessionId sessionId) = none := by
    rw [List.find?_eq_none]
    intro x hx
    have := List.of_mem_filter hx
    simpa using this
  simp only [getSession, hnone]

/-- Sample already-expired session row used by concrete witnesses. -/
def sampleExpiredRow : SessionRow :=
  { session_id_hash := hashSessionId "sid1", mb_id := "u1", csrf_token := "c1",
    ip := none, user_agent := none, created_at := 0, last_active_at := 0,
    expires_at := 100 }

theorem c4_expired_session_deleted_witness :
    ([sampleExpiredRow].find? (fun r => r.session_id_hash == hashSessionId "sid1")
      = some sampleExpiredRow) ∧
    (101 : Int) > sampleExpiredRow.expires_at ∧
    getSession [sampleExpiredRow] "sid1" 101 = (none, []) ∧
    (getSession (getSession [sampleExpiredRow] "sid1" 101).2 "sid1" 102).1 = none := by
  have h := c4_expired_session_deleted [sampleExpiredRow] "sid1" 101 102 sampleExpiredRow
    (by decide) (by decide)
  exact ⟨by decide, by decide, by rw [h.1]; decide, by rw [h.2]⟩

/-- C5: for an unexpired session row, getSession extends expiresAt to
now plus 30 days and bumps lastActiveAt when more than 15 days have passed
since lastActiveAt, bumps lastActiveAt alone when more than 5 minutes have
passed, and otherwise leaves the table untouched; in all three cases it
returns the session data carrying the raw session id as passed in, the
csrfToken and the member id of the stored row. -/
theorem c5_session_sliding_window
    (db : List SessionRow) (sessionId : String) (now : Int) (row : SessionRow)
    (hfind : db.find? (fun r => r.session_id_hash == hashSessionId sessionId) = some row)
    (hexp : ¬ now > row.expires_at) :
    (getSession db sessionId now).1
      = some { sessionId := sessionId, mbId := row.mb_id, csrfToken := row.csrf_token,
               ip := row.ip, userAgent := row.user_agent, createdAt := row.created_at,
               lastActiveAt := row.last_active_at, expiresAt := row.expires_at } ∧
    (now - row.last_active_at > SESSION_REFRESH_THRESHOLD_MS →
      (getSession db sessionId now).2 = db.map fun r =>
        if r.session_id_hash = hashSessionId sessionId then
          { r with last_active_at := now, expires_at := now + SESSION_MAX_AGE_MS }
        else r) ∧
    (¬ now - row.last_active_at > SESSION_REFRESH_THRESHOLD_MS →
      now - row.last_active_at > 5 * 60 * 1000 →
      (getSession db sessionId now).2 = db.map fun r =>
        if r.session_id_hash = hashSessionId sessionId then
          { r with last_active_at := now }
        else r) ∧
    (¬ now - row.last_active_at > SESSION_REFRESH_THRESHOLD_MS →
      ¬ now - row.last_active_at > 5 * 60 * 1000 →
      (getSession db sessionId now).2 = db) := by
  refine ⟨?_, fun h15 => ?_, fun h15 h5 => ?_, fun h15 h5 => ?_⟩
  · simp only [getSession, hfind]
    rw [if_neg hexp]
  · simp only [getSession, hfind]
    rw [if_neg hexp, if_pos h15]
  · simp only [getSession, hfind]
    rw [if_neg hexp, if_neg h15, if_pos h5]
  · simp only [getSession, hfind]
    rw [if_neg hexp, if_neg h15, if_neg h5]

/-- Sample fresh session row used by concrete witnesses. -/
def sampleSessionRow : SessionRow :=
  { session_id_hash := hashSessionId "sid2", mb_id := "u2", csrf_token := "c2",
    ip := none, user_agent := none, created_at := 0, last_active_at := 0,
    expires_at := SESSION_MAX_AGE_MS }

theorem c5_session_sliding_window_witness :
    ([sampleSessionRow].find? (fun r => r.session_id_hash == hashSessionId "sid2")
      = some sampleSessionRow) ∧
    ¬ (SESSION_REFRESH_THRESHOLD_MS + 1 : Int) > sampleSessionRow.expires_at ∧
    (getSession [sampleSessionRow] "sid2" (SESSION_REFRESH_THRESHOLD_MS + 1)).1
      = some { sessionId := "sid2", mbId := "u2", csrfToken := "c2", ip := none,
               userAgent := none, createdAt := 0, lastActiveAt := 0,
               expiresAt := SESSION_MAX_AGE_MS } ∧
    (getSession [sampleSessionRow] "sid2" (SESSION_REFRESH_THRESHOLD_MS + 1)).2
      = [{ sampleSessionRow with
             last_active_at := SESSION_REFRESH_THRESHOLD_MS + 1,
             expires_at := SESSION_REFRESH_THRESHOLD_MS + 1 + SESSION_MAX_AGE_MS }] ∧
    (getSession [sampleSessionRow] "sid2" 400000).2
      = [{ sampleSessionRow with last_active_at := 400000 }] ∧
    (getSession [sampleSessionRow] "sid2" 200000).2 = [sampleSessionRow] := by
  have h1 := c5_session_sliding_window [sampleSessionRow] "sid2"
    (SESSION_REFRESH_THRESHOLD_MS + 1) sampleSessionRow (by decide) (by decide)
  have h2 := c5_session_sliding_window [sampleSessionRow] "sid2" 400000 sampleSessionRow
    (by decide) (by decide)
  have h3 := c5_session_sliding_window [sampleSessionRow] "sid2" 200000 sampleSessionRow
    (by decide) (by decide)
  refine ⟨by decide, by decide, h1.1, ?_, ?_, ?_⟩
  · rw [h1.2.1 (by decide)]; decide
  · rw [h2.2.2.1 (by decide) (by decide)]; decide
  · exact h3.2.2.2 (by decide) (by decide)

/-- Facebook profile endpoint payload (providers/facebook.ts). -/
structure FacebookPictureData where
  url : Option String
deriving DecidableEq, Repr

/-- Wrapper object for the Facebook picture field. -/
structure FacebookPicture where
  data : Option FacebookPictureData
deriving DecidableEq, Repr

/-- Facebook profile response shape; only id is required. -/
structure FacebookProfileResponse where
  id : String
  name : Option String := none
  email : Option String := none
  picture : Option FacebookPicture := none
deriving DecidableEq, Repr

/-- Facebook parseUserProfile: pure mapping to the common profile shape; the
profile URL is derived from the id rather than defaulted. -/
def FacebookProvider.parseUserProfile (d : FacebookProfileResponse) : OAuthUserProfile :=
  { provider := .facebook
  , identifier := d.id
  , displayName := d.name.getD ""
  , email := d.email.getD ""
  , photoUrl := ((d.picture.bind (fun p => p.data)).bind (fun pd => pd.url)).getD ""
  , profileUrl := "https://www.facebook.com/" ++ d.id }

/-- Google userinfo payload (providers/google.ts); only sub is required. -/
structure GoogleProfileResponse where
  sub : String
  name : Option String := none
  given_name : Option String := none
  family_name : Option String := none
  picture : Option String := none
  email : Option String := none
  email_verified : Option Bool := none
deriving DecidableEq, Repr

/-- Google parseUserProfile. -/
def GoogleProvider.parseUserProfile (d : GoogleProfileResponse) : OAuthUserProfile :=
  { provider := .google
  , identifier := d.sub
  , displayName := d.name.getD ""
  , email := d.email.getD ""
  , photoUrl := d.picture.getD ""
  , profileUrl := "" }

/-- Naver profile payload (providers/naver.ts); only response.id is required. -/
structure NaverProfileObject where
  id : String
  nickname : Option String := none
  email : Option String := none
  profile_image : Option String := none
  name : Option String := none
deriving DecidableEq, Repr

/-- Naver wraps the profile in a response field. -/
structure NaverProfileResponse where
  response : NaverProfileObject
deriving DecidableEq, Repr

/-- Naver parseUserProfile. -/
def NaverProvider.parseUserProfile (d : NaverProfileResponse) : OAuthUserProfile :=
  let r := d.response
  { provider := .naver
  , identifier := r.id
  , displayName := jsOr (r.nickname.getD "") (r.name.getD "")
  , email := r.email.getD ""
  , photoUrl := r.profile_image.getD ""
  , profileUrl := "" }

/-- Kakao optional properties object (providers/kakao.ts). -/
structure KakaoProperties where
  nickname : Option String := none
  thumbnail_image : Option String := none
  profile_image : Option String := none
deriving DecidableEq, Repr

/-- Kakao account profile sub-object. -/
structure KakaoAccountProfile where
  nickname : Option String := none
  thumbnail_image_url : Option String := none
deriving DecidableEq, Repr

/-- Kakao account sub-object. -/
structure KakaoAccount where
  email : Option String := none
  profile : Option KakaoAccountProfile := none
deriving DecidableEq, Repr

/-- Kakao profile response; only the numeric id is required. -/
structure KakaoProfileResponse where
  id : Int
  properties : Option KakaoProperties := none
  kakao_account : Option KakaoAccount := none
deriving DecidableEq, Repr

/-- Kakao parseUserProfile; the numeric id is stringified. -/
def KakaoProvider.parseUserProfile (d : KakaoProfileResponse) : OAuthUserProfile :=
  { provider := .kakao
  , identifier := toString d.id
  , displayName := jsOr ((d.properties.bind (fun p => p.nickname)).getD "")
      (((d.kakao_account.bind (fun a => a.profile)).bind (fun p => p.nickname)).getD "")
  , email := (d.kakao_account.bind (fun a => a.email)).getD ""
  , photoUrl := jsOr ((d.properties.bind (fun p => p.thumbnail_image)).getD "")
      (((d.kakao_account.bind (fun a => a.profile)).bind (fun p => p.thumbnail_image_url)).getD "")
  , profileUrl := "" }

/-- Twitter user object (providers/twitter.ts); only id is required. -/
structure TwitterUserData where
  id : String
  name : Option String := none
  username : Option String := none
  profile_image_url : Option String := none
deriving DecidableEq, Repr

/-- Twitter wraps the user object in a data field. -/
structure TwitterProfileResponse where
  data : TwitterUserData
deriving DecidableEq, Repr

/-- Twitter parseUserProfile; the profile URL is built from the username only
when one is present. -/
def TwitterProvider.parseUserProfile (resp : TwitterProfileResponse) : OAuthUserProfile :=
  let d := resp.data
  { provider := .twitter
  , identifier := d.id
  , displayName := jsOr (d.name.getD "") (d.username.getD "")
  , email := ""
  , photoUrl := d.profile_image_url.getD ""
  , profileUrl := if d.username.getD "" = "" then "" else "https://x.com/" ++ d.username.getD "" }

/-- Apple id_token payload (providers/apple.ts); only sub is required. -/
structure AppleIdTokenPayload where
  sub : String
  email : Option String := none
deriving DecidableEq, Repr

/-- Apple parseUserProfile. -/
def AppleProvider.parseUserProfile (d : AppleIdTokenPayload) : OAuthUserProfile :=
  { provider := .apple
  , identifier := d.sub
  , displayName := ""
  , email := d.email.getD ""
  , photoUrl := ""
  , profileUrl := "" }

/-- Payco member object (providers/payco.ts). -/
structure PaycoMember where
  idNo : Option String := none
  email : Option String := none
  name : Option String := none
  mobile : Option String := none
  birthdayMMdd : Option String := none
  profileImageUrl : Option String := none
  genderCode : Option String := none
deriving DecidableEq, Repr

/-- Payco data wrapper object. -/
structure PaycoData where
  member : Option PaycoMember := none
deriving DecidableEq, Repr

/-- Payco response header. -/
structure PaycoHeader where
  isSuccessful : Bool
  resultCode : Int
  resultMessage : String
deriving DecidableEq, Repr

/-- Payco profile response shape. -/
structure PaycoProfileResponse where
  header : PaycoHeader
  data : Option PaycoData := none
deriving DecidableEq, Repr

/-- Payco parseUserProfile. -/
def PaycoProvider.parseUserProfile (d : PaycoProfileResponse) : OAuthUserProfile :=
  let member := d.data.bind (fun x => x.member)
  { provider := .payco
  , identifier := (member.bind (fun m => m.idNo)).getD ""
  , displayName := (member.bind (fun m => m.name)).getD ""
  , email := (member.bind (fun m => m.email)).getD ""
  , photoUrl := (member.bind (fun m => m.profileImageUrl)).getD ""
  , profileUrl := "" }

/-- C7 counterexample: for the Facebook adapter, a payload containing only
the required id yields a profile whose profileUrl is derived from the id,
not the empty string, so the claim that all four optional fields default to
the empty string for every adapter is false. -/
theorem c7_parse_profile_counterexample :
    (FacebookProvider.parseUserProfile { id := "1" }).profileUrl
      = "https://www.facebook.com/1" ∧
    (FacebookProvider.parseUserProfile { id := "1" }).profileUrl ≠ "" := by
  constructor <;> decide

/-- C7 amended: for every provider adapter, parseUserProfile on a payload
containing only the required provider-scoped identifier yields the empty
string for displayName, email and photoUrl and does not throw (the embedding
is total); profileUrl likewise defaults to the empty string for every
adapter except Facebook, whose profileUrl is derived from the id. -/
theorem c7_parse_profile_defaults (fbId gId nId tId aSub pIdNo : String) (kId : Int) :
    FacebookProvider.parseUserProfile { id := fbId }
      = { provider := .facebook, identifier := fbId, displayName := "", email := "",
          photoUrl := "", profileUrl := "https://www.facebook.com/" ++ fbId } ∧
    GoogleProvider.parseUserProfile { sub := gId }
      = { provider := .google, identifier := gId, displayName := "", email := "",
          photoUrl := "", profileUrl := "" } ∧
    NaverProvider.parseUserProfile { response := { id := nId } }
      = { provider := .naver, identifier := nId, displayName := "", email := "",
          photoUrl := "", profileUrl := "" } ∧
    KakaoProvider.parseUserProfile { id := kId }
      = { provider := .kakao, identifier := toString kId, displayName := "", email := "",
          photoUrl := "", profileUrl := "" } ∧
    TwitterProvider.parseUserProfile { data := { id := tId } }
      = { provider := .twitter, identifier := tId, displayName := "", email := "",
          photoUrl := "", profileUrl := "" } ∧
    AppleProvider.parseUserProfile { sub := aSub }
      = { provider := .apple, identifier := aSub, displayName := "", email := "",
          photoUrl := "", profileUrl := "" } ∧
    PaycoProvider.parseUserProfile
        { header := { isSuccessful := true, resultCode := 0, resultMessage := "" },
          data := some { member := some { idNo := some pIdNo } } }
      = { provider := .payco, identifier := pIdNo, displayName := "", email := "",
          photoUrl := "", profileUrl := "" } := by
  refine ⟨?_, rfl, ?_, ?_, ?_, rfl, ?_⟩ <;>
    simp [FacebookProvider.parseUserProfile, NaverProvider.parseUserProfile,
      KakaoProvider.parseUserProfile, TwitterProvider.parseUserProfile,
      PaycoProvider.parseUserProfile, jsOr]

/-- A member row as read through the member repository (oauth/member.ts). -/
structure Member where
  mb_id : String
  mb_nick : String
  mb_name : String
  mb_level : Option Int
  mb_email : Option String
deriving DecidableEq, Repr

/-- Authenticated user shape returned by getAuthUser (index.ts AuthUser). -/
structure AuthUser where
  mb_id : String
  mb_name : String
  mb_level : Int
  mb_email : String
deriving DecidableEq, Repr

/-- The AuthUser built from a member row: nick falls back to name, level
defaults to 0 and email to the empty string. -/
def authUserOfMember (m : Member) : AuthUser :=
  { mb_id := m.mb_id, mb_name := jsOr m.mb_nick m.mb_name,
    mb_level := m.mb_level.getD 0, mb_email := m.mb_email.getD "" }

/-- Priority 1 of getAuthUser: angple_sid session cookie, session store
lookup, then member lookup; any failure falls through. -/
def authFromSession (cookies : Cookies) (sessionDb : List SessionRow)
    (getMemberById : String → Option Member) (now : Int) : Option AuthUser :=
  match cookies.angple_sid with
  | none => none
  | some sessionId =>
    match (getSession sessionDb sessionId now).1 with
    | none => none
    | some session =>
      match getMemberById session.mbId with
      | none => none
      | some member => some (authUserOfMember member)

/-- Priority 2 of getAuthUser: access_token cookie verified strictly; the
payload is returned directly without a member lookup. -/
def authFromAccessToken (cookies : Cookies) (now : Int) : Option AuthUser :=
  match cookies.access_token with
  | none => none
  | some accessToken =>
    match verifyToken accessToken now with
    | none => none
    | some payload =>
      some { mb_id := payload.sub, mb_name := payload.nickname,
             mb_level := payload.level, mb_email := payload.email }

/-- Priority 3 of getAuthUser: refresh_token cookie verified strictly by JWT
signature, issuer and expiry, followed only by a member lookup on the
subject; the refresh-token store is never consulted. -/
def authFromRefreshToken (cookies : Cookies) (getMemberById : String → Option Member)
    (now : Int) : Option AuthUser :=
  match cookies.refresh_token with
  | none => none
  | some refreshToken =>
    match verifyToken refreshToken now with
    | none => none
    | some payload =>
      if payload.sub = "" then none
      else
        match getMemberById payload.sub with
        | none => none
        | some member => some (authUserOfMember member)

/-- Priority 4 of getAuthUser: legacy damoang_jwt cookie under the lax
verifier; the payload is returned directly. -/
def authFromLegacyJwt (cookies : Cookies) (now : Int) : Option AuthUser :=
  match cookies.damoang_jwt with
  | none => none
  | some legacyJwt =>
    match verifyTokenLax legacyJwt now with
    | none => none
    | some payload =>
      if payload.sub = "" then none
      else
        some { mb_id := payload.sub, mb_name := payload.nickname,
               mb_level := payload.level, mb_email := payload.email }

/-- Cookie-based request authentication (index.ts getAuthUser), trying the
four credential sources in priority order. The refresh-token table is part
of the ambient state (tokenDb) but no branch reads it. -/
def getAuthUser (cookies : Cookies) (sessionDb : List SessionRow)
    (_tokenDb : List RefreshTokenRow) (getMemberById : String → Option Member)
    (now : Int) : Option AuthUser :=
  match authFromSession cookies sessionDb getMemberById now with
  | some u => some u
  | none =>
    match authFromAccessToken cookies now with
    | some u => some u
    | none =>
      match authFromRefreshToken cookies getMemberById now with
      | some u => some u
      | none => authFromLegacyJwt cookies now

/-- C9: when no session or access-token cookie is present and the presented
refresh_token cookie passes strict JWT verification with a non-empty subject
naming an existing member, getAuthUser returns that member as authenticated
for every possible refresh-token table — in particular for tables in which
the row of this token has been revoked, including by family-wide revocation,
because the fallback never consults the store. -/
theorem c9_getAuthUser_refresh_fallback
    (cookies : Cookies) (sessionDb : List SessionRow)
    (getMemberById : String → Option Member) (now : Int)
    (tok : Jwt) (payload : JwtPayload) (m : Member)
    (hsid : cookies.angple_sid = none)
    (hat : cookies.access_token = none)
    (hrt : cookies.refresh_token = some tok)
    (hv : verifyToken tok now = some payload)
    (hsub : payload.sub ≠ "")
    (hm : getMemberById payload.sub = some m) :
    ∀ tokenDb : List RefreshTokenRow,
      getAuthUser cookies sessionDb tokenDb getMemberById now
        = some (authUserOfMember m) := by
  intro tokenDb
  simp only [getAuthUser, authFromSession, authFromAccessToken, authFromRefreshToken,
    hsid, hat, hrt, hv]
  rw [if_neg hsub, hm]

/-- Sample member record used by concrete witnesses. -/
def sampleMember : Member :=
  { mb_id := "u1", mb_nick := "nick1", mb_name := "name1",
    mb_level := some 2, mb_email := some "u1@angple.test" }

/-- Sample member repository used by concrete witnesses. -/
def sampleMembers : String → Option Member :=
  fun s => if s = "u1" then some sampleMember else none

theorem c9_getAuthUser_refresh_fallback_witness :
    ({ refresh_token := some sampleJwt } : Cookies).angple_sid = none ∧
    ({ refresh_token := some sampleJwt } : Cookies).access_token = none ∧
    verifyToken sampleJwt 10
      = some { sub := "u1", nickname := "", level := 0, email := "" } ∧
    sampleMembers "u1" = some sampleMember ∧
    sampleRevokedRow.token_hash = hashToken sampleJwt ∧
    sampleRevokedRow.revoked_at = some 5 ∧
    getAuthUser { refresh_token := some sampleJwt } [] [sampleRevokedRow] sampleMembers 10
      = some (authUserOfMember sampleMember) := by
  refine ⟨rfl, rfl, by decide, by decide, rfl, rfl, ?_⟩
  exact c9_getAuthUser_refresh_fallback { refresh_token := some sampleJwt } [] sampleMembers 10
    sampleJwt { sub := "u1", nickname := "", level := 0, email := "" } sampleMember
    rfl rfl rfl (by decide) (by decide) (by decide) [sampleRevokedRow]

/-- The row inserted into g5_member by createMember, restricted to the
fields the action fills from user input. -/
structure NewMemberRecord where
  mb_id : String
  mb_nick : String
  mb_name : String
  mb_email : String
deriving DecidableEq, Repr

/-- Outcome of the social-registration form action (register/+page.server.ts),
fail mirrors SvelteKit fail(status) and success carries the inserted member
record and the redirect target. -/
inductive RegisterOutcome where
  | fail (status : Int)
  | success (created : NewMemberRecord) (redirectTo : String)
deriving DecidableEq, Repr

/-- Environment of the registration action. validateNickname, the rate
limiter, the captcha verifier, generateSocialMbId, isMbIdTaken and the DB
insert are outside src (only this caller is), so each is an oracle:
validNickname is the boolean outcome of validateNickname on the submitted
nickname, idSuffix is the random 4-byte hex suffix from randomBytes, and
createMemberOk is whether the g5_member insert succeeds. -/
structure RegisterEnv where
  rateAllowed : Bool
  captchaValid : Bool
  validNickname : String → Bool
  generateSocialMbId : SocialProvider → String → String
  isMbIdTaken : String → Bool
  idSuffix : String
  createMemberOk : Bool

/-- The registration form action (register/+page.server.ts actions default):
rate limit, captcha, staged-profile cookie, consent and nickname validation
gates in order; then the member id is generated from provider and identifier
and suffixed only when that id is already taken; the nickname is stored
exactly as submitted in mb_nick and mb_name. -/
def registerAction (env : RegisterEnv) (pending : Option PendingProfile)
    (nickname : String) (agreeTerms agreePrivacy : Bool) (redirectUrl : String) :
    RegisterOutcome :=
  if ¬ env.rateAllowed then .fail 429
  else if ¬ env.captchaValid then .fail 400
  else match pending with
  | none => .fail 400
  | some profile =>
    if ¬ (agreeTerms ∧ agreePrivacy) then .fail 400
    else if ¬ env.validNickname nickname then .fail 400
    else
      let mbId0 := env.generateSocialMbId profile.provider profile.identifier
      let mbId := if env.isMbIdTaken mbId0 then mbId0 ++ "_" ++ env.idSuffix else mbId0
      if ¬ env.createMemberOk then .fail 500
      else .success { mb_id := mbId, mb_nick := nickname, mb_name := nickname,
                      mb_email := profile.email } redirectUrl

/-- Sample staged social profile used by the registration theorems. -/
def pendingSample : PendingProfile :=
  { provider := .google, identifier := "123", email := "", displayName := "",
    photoUrl := "", profileUrl := "" }

/-- Sample registration environment in which nickname validation accepts
everything, so a taken nickname reaches the insert untouched. -/
def regEnvAccept : RegisterEnv :=
  { rateAllowed := true, captchaValid := true, validNickname := fun _ => true,
    generateSocialMbId := fun _ _ => "google_123", isMbIdTaken := fun _ => false,
    idSuffix := "abcd1234", createMemberOk := true }

/-- Sample registration environment in which nickname validation rejects the
submitted nickname (as it does when the nickname is taken and checked). -/
def regEnvReject : RegisterEnv :=
  { rateAllowed := true, captchaValid := true, validNickname := fun _ => false,
    generateSocialMbId := fun _ _ => "google_123", isMbIdTaken := fun _ => false,
    idSuffix := "abcd1234", createMemberOk := true }

/-- C8 counterexample: a taken nickname is never resolved by suffixing the
member id. Whichever way the (missing from src) validateNickname oracle
treats the taken nickname dup, the action either rejects the form with a
400 failure or creates the member under the unsuffixed generated id; in no
run does a nickname collision append a suffix to the member id. -/
theorem c8_register_counterexample :
    registerAction regEnvReject (some pendingSample) "dup" true true "/" = .fail 400 ∧
    registerAction regEnvAccept (some pendingSample) "dup" true true "/"
      = .success { mb_id := "google_123", mb_nick := "dup", mb_name := "dup",
                   mb_email := "" } "/" ∧
    regEnvAccept.generateSocialMbId pendingSample.provider pendingSample.identifier
      = "google_123" := by
  refine ⟨?_, ?_, rfl⟩ <;> decide

/-- C8 amended: only a member-id collision is resolved by appending the
short random suffix to the generated member id; the member id never depends
on the nickname, a nickname that fails validation (where a taken nickname
surfaces) aborts with a 400 failure, and a created member record keeps the
chosen nickname exactly as submitted in mb_nick and mb_name. -/
theorem c8_suffix_only_for_id_collision
    (env : RegisterEnv) (profile : PendingProfile) (nickname redirectUrl : String)
    (hrate : env.rateAllowed = true) (hcap : env.captchaValid = true)
    (hins : env.createMemberOk = true) :
    (env.validNickname nickname = false →
      registerAction env (some profile) nickname true true redirectUrl = .fail 400) ∧
    (env.validNickname nickname = true →
      registerAction env (some profile) nickname true true redirectUrl
        = .success
            { mb_id :=
                if env.isMbIdTaken (env.generateSocialMbId profile.provider profile.identifier)
                then env.generateSocialMbId profile.provider profile.identifier
                       ++ "_" ++ env.idSuffix
                else env.generateSocialMbId profile.provider profile.identifier,
              mb_nick := nickname, mb_name := nickname, mb_email := profile.email }
            redirectUrl) := by
  constructor <;> intro hnick <;> simp [registerAction, hrate, hcap, hins, hnick]

theorem c8_suffix_only_for_id_collision_witness :
    ({ regEnvAccept with isMbIdTaken := fun _ => true } : RegisterEnv).rateAllowed = true ∧
    ({ regEnvAccept with isMbIdTaken := fun _ => true } : RegisterEnv).validNickname "dup" = true ∧
    registerAction { regEnvAccept with isMbIdTaken := fun _ => true }
        (some pendingSample) "dup" true true "/"
      = .success { mb_id := "google_123_abcd1234", mb_nick := "dup", mb_name := "dup",
                   mb_email := "" } "/" := by
  refine ⟨rfl, rfl, ?_⟩
  have h := (c8_suffix_only_for_id_collision { regEnvAccept with isMbIdTaken := fun _ => true }
    pendingSample "dup" "/" rfl rfl rfl).2 rfl
  simpa [regEnvAccept, pendingSample] using h

/-- ASCII lower-casing of a string, modelling the JavaScript toLowerCase
call on the ASCII provider slugs. -/
def asciiLower (s : String) : String :=
  String.mk (s.data.map fun c =>
    if 65 ≤ c.toNat ∧ c.toNat ≤ 90 then Char.ofNat (c.toNat + 32) else c)

/-- Provider slug normalization (provider-registry.ts normalizeProviderName):
lower-case the path parameter and accept only known providers. -/
def normalizeProviderName (name : String) : Option SocialProvider :=
  match asciiLower name with
  | "naver" => some .naver
  | "kakao" => some .kakao
  | "google" => some .google
  | "facebook" => some .facebook
  | "apple" => some .apple
  | "twitter" => some .twitter
  | "payco" => some .payco
  | _ => none

/-- Token endpoint response (types.ts OAuthTokenResponse). -/
structure OAuthTokenResponse where
  access_token : String
  id_token : Option String := none
deriving DecidableEq, Repr

/-- External operations performed by the callback handler, recorded in the
order they run. -/
inductive Effect where
  | codeExchange
  | profileFetch
  | memberResolve
  | socialUpsert
  | loginTimestamp
  | sessionCreate
deriving DecidableEq, Repr

/-- Redirect targets issued by the callback handler: every exit of
handleCallback is a 302 redirect. -/
inductive CallbackOutcome where
  | loginError (reason : String)
  | registerRedirect (provider : SocialProvider) (email : Option String)
      (redirect : Option String)
  | successRedirect (location : String)
deriving DecidableEq, Repr

/-- Oracles for the network and database collaborators of the callback
handler: the provider token exchange and profile fetch (none models a thrown
upstream error), the social-profile link table, the member repository, and
the random outputs of createSession. -/
structure CallbackEnv where
  exchangeCode : String → Option String → Option OAuthTokenResponse
  getUserProfile : String → Option String → Option OAuthUserProfile
  findSocialProfile : SocialProvider → String → Option String
  findMemberByEmail : String → Option Member
  getMemberById : String → Option Member
  isMemberActive : Member → Bool
  newSessionId : String
  newCsrfToken : String

/-- Member resolution and session creation, the tail of handleCallback after
a profile has been fetched (steps 5 onward in the source). -/
def resolveAndLogin (env : CallbackEnv) (providerName : SocialProvider)
    (stateData : OAuthStateData) (profile : OAuthUserProfile) (cookies : Cookies)
    (sessionDb : List SessionRow) (effects : List Effect) (now : Int) :
    CallbackOutcome × Cookies × List Effect × List SessionRow :=
  let effects := effects ++ [.memberResolve]
  let mbId : Option String :=
    match env.findSocialProfile providerName profile.identifier with
    | some linkedId => some linkedId
    | none =>
      if profile.email ≠ "" then
        match env.findMemberByEmail profile.email with
        | some member => some member.mb_id
        | none => none
      else none
  match mbId with
  | none =>
    let pending : PendingProfile :=
      { provider := providerName, identifier := profile.identifier,
        email := profile.email, displayName := profile.displayName,
        photoUrl := profile.photoUrl, profileUrl := profile.profileUrl }
    (.registerRedirect providerName
        (if profile.email ≠ "" then some profile.email else none)
        (if stateData.redirect ≠ "" then some stateData.redirect else none),
     { cookies with pending_social_register := some pending }, effects, sessionDb)
  | some mbId =>
    match env.getMemberById mbId with
    | none => (.loginError "account_inactive", cookies, effects, sessionDb)
    | some member =>
      if ¬ env.isMemberActive member then
        (.loginError "account_inactive", cookies, effects, sessionDb)
      else
        let effects := effects ++ [.socialUpsert, .loginTimestamp, .sessionCreate]
        let created := createSession sessionDb member.mb_id env.newSessionId
          env.newCsrfToken none (some "") now
        (.successRedirect (jsOr stateData.redirect "/"),
         { cookies with angple_sid := some env.newSessionId,
                        angple_csrf := some env.newCsrfToken },
         effects, created.2)

/-- The OAuth callback handler (callback route handleCallback): provider
normalization, single-use state validation, the provider-match check, then
code exchange, profile fetch (id token for Apple, PKCE verifier cookie for
Twitter), member resolution and session creation. The effect trace records
which external operations ran. -/
def handleCallback (env : CallbackEnv) (providerSlug : String) (cookies : Cookies)
    (code stateParam : String) (sessionDb : List SessionRow) (now : Int) :
    CallbackOutcome × Cookies × List Effect × List SessionRow :=
  match normalizeProviderName providerSlug with
  | none => (.loginError "invalid_provider", cookies, [], sessionDb)
  | some providerName =>
    match validateOAuthState cookies stateParam now with
    | (none, cookies1) => (.loginError "invalid_state", cookies1, [], sessionDb)
    | (some stateData, cookies1) =>
      if stateData.provider ≠ providerName then
        (.loginError "provider_mismatch", cookies1, [], sessionDb)
      else
        let pkce : Option String :=
          if providerName = .twitter then cookies1.oauth_pkce else none
        let cookies2 :=
          if providerName = .twitter then { cookies1 with oauth_pkce := none }
          else cookies1
        match env.exchangeCode code pkce with
        | none => (.loginError "oauth_error", cookies2, [.codeExchange], sessionDb)
        | some tokenResponse =>
          let idToken : Option String :=
            if providerName = .apple then tokenResponse.id_token else none
          match env.getUserProfile tokenResponse.access_token idToken with
          | none => (.loginError "oauth_error", cookies2,
                     [.codeExchange, .profileFetch], sessionDb)
          | some profile =>
            resolveAndLogin env providerName stateData profile cookies2 sessionDb
              [.codeExchange, .profileFetch] now

/-- C6: when the provider named in the callback URL path differs from the
provider recorded in the validated state data, the flow redirects to the
login page with the provider_mismatch reason and the effect trace is empty:
no code exchange, profile fetch, member resolution or session creation runs,
and the session table is untouched. -/
theorem c6_provider_mismatch_aborts
    (env : CallbackEnv) (providerSlug : String) (cookies : Cookies)
    (code stateParam : String) (sessionDb : List SessionRow) (now : Int)
    (providerName : SocialProvider) (stateData : OAuthStateData) (cookies1 : Cookies)
    (hname : normalizeProviderName providerSlug = some providerName)
    (hstate : validateOAuthState cookies stateParam now = (some stateData, cookies1))
    (hmismatch : stateData.provider ≠ providerName) :
    handleCallback env providerSlug cookies code stateParam sessionDb now
      = (.loginError "provider_mismatch", cookies1, [], sessionDb) := by
  simp only [handleCallback, hname, hstate]
  rw [if_pos hmismatch]

/-- Callback environment whose oracles are all inert, used by witnesses. -/
def sampleCallbackEnv : CallbackEnv :=
  { exchangeCode := fun _ _ => none, getUserProfile := fun _ _ => none,
    findSocialProfile := fun _ _ => none, findMemberByEmail := fun _ => none,
    getMemberById := fun _ => none, isMemberActive := fun _ => false,
    newSessionId := "sid", newCsrfToken := "csrf" }

/-- Sample google state data used by the mismatch witnesses. -/
def mismatchState : OAuthStateData :=
  { state := "s9", provider := .google, redirect := "/free", timestamp := 0 }

/-- Cookie jar holding a google state, used by the mismatch witnesses. -/
def mismatchCookies : Cookies :=
  { oauth_state := some (.stateJson mismatchState) }

theorem c6_provider_mismatch_aborts_witness :
    normalizeProviderName "kakao" = some .kakao ∧
    validateOAuthState mismatchCookies "s9" 1000
      = (some mismatchState, { mismatchCookies with oauth_state := none }) ∧
    (SocialProvider.google ≠ .kakao) ∧
    handleCallback sampleCallbackEnv "kakao" mismatchCookies "code1" "s9" [] 1000
      = (.loginError "provider_mismatch", { mismatchCookies with oauth_state := none },
         [], []) := by
  refine ⟨by decide, by decide, by decide, ?_⟩
  exact c6_provider_mismatch_aborts sampleCallbackEnv "kakao" mismatchCookies "code1" "s9"
    [] 1000 .kakao mismatchState
    { mismatchCookies with oauth_state := none } (by decide) (by decide) (by decide)

/-- C10: validateOAuthState deletes the state cookie before the handler
compares providers, so after a callback that fails only on the provider
mismatch the resulting jar carries no state cookie, and every later
validate call — with the same state string or any other — returns none. -/
theorem c10_state_deleted_before_provider_check
    (env : CallbackEnv) (providerSlug : String) (cookies : Cookies)
    (code stateParam : String) (sessionDb : List SessionRow) (now : Int)
    (providerName : SocialProvider) (stateData : OAuthStateData)
    (hname : normalizeProviderName providerSlug = some providerName)
    (hcookie : cookies.oauth_state = some (.stateJson stateData))
    (hmatch : stateData.state = stateParam)
    (hfresh : ¬ now - stateData.timestamp > STATE_MAX_AGE * 1000)
    (hmismatch : stateData.provider ≠ providerName) :
    (handleCallback env providerSlug cookies code stateParam sessionDb now).1
      = .loginError "provider_mismatch" ∧
    (handleCallback env providerSlug cookies code stateParam sessionDb now).2.1.oauth_state
      = none ∧
    ∀ (s : String) (later : Int),
      (validateOAuthState
        (handleCallback env providerSlug cookies code stateParam sessionDb now).2.1
        s later).1 = none := by
  have hstate : validateOAuthState cookies stateParam now
      = (some stateData, { cookies with oauth_state := none }) := by
    simp only [validateOAuthState, hcookie, hmatch]
    rw [if_neg (by simp), if_neg hfresh]
  have h := c6_provider_mismatch_aborts env providerSlug cookies code stateParam sessionDb
    now providerName stateData { cookies with oauth_state := none } hname hstate hmismatch
  rw [h]
  exact ⟨rfl, rfl, fun s later => by simp [validateOAuthState]⟩

theorem c10_state_deleted_before_provider_check_witness :
    normalizeProviderName "naver" = some .naver ∧
    mismatchCookies.oauth_state = some (.stateJson mismatchState) ∧
    ¬ (1000 : Int) - mismatchState.timestamp > STATE_MAX_AGE * 1000 ∧
    (mismatchState.provider ≠ .naver) ∧
    (handleCallback sampleCallbackEnv "naver" mismatchCookies "c" "s9" [] 1000).2.1.oauth_state
      = none ∧
    (validateOAuthState
      (handleCallback sampleCallbackEnv "naver" mismatchCookies "c" "s9" [] 1000).2.1
      "s9" 1001).1 = none := by
  have h := c10_state_deleted_before_provider_check sampleCallbackEnv "naver" mismatchCookies
    "c" "s9" [] 1000 .naver mismatchState
    (by decide) (by decide) (by decide) (by decide) (by decide)
  exact ⟨by decide, by decide, by decide, by decide, h.2.1, h.2.2 "s9" 1001⟩

/-- The refresh JWT signed by generateRefreshToken at time t: subject only,
issuer angple, expiry seven days from issuance, signed with JWT_SECRET. -/
def mkRefreshJwt (mbId : String) (t : Int) : Jwt :=
  { sub := mbId, iat := t, exp := t + REFRESH_TOKEN_TTL_MS, iss := some "angple",
    secret := JWT_SECRET }

/-- Issue a refresh token (jwt.ts generateRefreshToken): sign the JWT, hash
it and insert the row; the familyId is reused when supplied in the metadata,
otherwise the freshly minted random family id (generateFamilyId), supplied
here as newFamilyId, starts a new lineage. -/
def generateRefreshToken (db : List RefreshTokenRow) (mbId : String)
    (familyId? : Option String) (newFamilyId : String) (now : Int) :
    Jwt × String × List RefreshTokenRow :=
  let familyId := familyId?.getD newFamilyId
  let token := mkRefreshJwt mbId now
  let tokenHash := hashToken token
  let expiresAt := now + REFRESH_TOKEN_TTL_MS
  (token, familyId, storeRefreshToken db tokenHash mbId familyId expiresAt now)

/-- Refresh token rotation (jwt.ts rotateRefreshToken): verify the old token
signature, validate its hash against the store, revoke the old hash and
issue a new token under the same familyId; any failure yields no new token,
with the side effects of findValidToken kept. -/
def rotateRefreshToken (db : List RefreshTokenRow) (oldToken : Jwt)
    (newFamilyId : String) (now : Int) :
    Option (Jwt × String) × List RefreshTokenRow :=
  match verifyToken oldToken now with
  | none => (none, db)
  | some payload =>
    if payload.sub = "" then (none, db)
    else
      match findValidToken db (hashToken oldToken) now with
      | (none, db1) => (none, db1)
      | (some info, db1) =>
        let gen := generateRefreshToken (revokeToken db1 (hashToken oldToken) now)
          info.1 (some info.2) newFamilyId now
        (some (gen.1, info.1), gen.2.2)

/-- Iterated rotation, presenting the newest token at each of the given
instants in turn; none when any rotation is refused. -/
def rotateIter (db : List RefreshTokenRow) (tok : Jwt) :
    List Int → Option (Jwt × List RefreshTokenRow)
  | [] => some (tok, db)
  | t :: ts =>
    match rotateRefreshToken db tok "" t with
    | (none, _) => none
    | (some res, db1) => rotateIter db1 res.1 ts

/-- Strictly increasing rotation instants, each one before the previously
issued token expires. -/
def validRotationTimes : Int → List Int → Bool
  | _, [] => true
  | tprev, t :: ts =>
    decide (tprev < t) && decide (t < tprev + REFRESH_TOKEN_TTL_MS)
      && validRotationTimes t ts

/-- The row inserted for the refresh token issued at time t. -/
def freshRefreshRow (mbId familyId : String) (t : Int) : RefreshTokenRow :=
  { token_hash := hashToken (mkRefreshJwt mbId t), mb_id := mbId,
    family_id := familyId, created_at := t, expires_at := t + REFRESH_TOKEN_TTL_MS,
    revoked_at := none }

/-- Invariant of a rotation chain: the table is older rows of the family,
all hashed from tokens issued strictly earlier, followed by the live row of
the current token. -/
def RotationInv (mbId familyId : String) (tlast : Int) (db : List RefreshTokenRow) : Prop :=
  ∃ older, db = older ++ [freshRefreshRow mbId familyId tlast] ∧
    ∀ r ∈ older, r.family_id = familyId ∧ r.mb_id = mbId ∧
      ∃ t, t < tlast ∧ r.token_hash = hashToken (mkRefreshJwt mbId t)

theorem rotationInv_family (mbId familyId : String) (tlast : Int)
    (db : List RefreshTokenRow) (h : RotationInv mbId familyId tlast db) :
    ∀ r ∈ db, r.family_id = familyId := by
  obtain ⟨older, rfl, holder⟩ := h
  intro r hr
  rcases List.mem_append.1 hr with h1 | h2
  · exact (holder r h1).1
  · simp only [List.mem_singleton] at h2
    subst h2
    rfl

theorem rotateRefreshToken_step (mbId familyId nf : String) (tlast t : Int)
    (db : List RefreshTokenRow) (hmb : mbId ≠ "")
    (hinv : RotationInv mbId familyId tlast db)
    (hlt : tlast < t) (hexp : t < tlast + REFRESH_TOKEN_TTL_MS) :
    rotateRefreshToken db (mkRefreshJwt mbId tlast) nf t
      = (some (mkRefreshJwt mbId t, mbId),
         revokeToken db (hashToken (mkRefreshJwt mbId tlast)) t
           ++ [freshRefreshRow mbId familyId t]) ∧
    RotationInv mbId familyId t
      (revokeToken db (hashToken (mkRefreshJwt mbId tlast)) t
         ++ [freshRefreshRow mbId familyId t]) ∧
    (revokeToken db (hashToken (mkRefreshJwt mbId tlast)) t
       ++ [freshRefreshRow mbId familyId t]).length = db.length + 1 := by
  obtain ⟨older, hdb, holder⟩ := hinv
  have hfindOlder : older.find?
      (fun r => r.token_hash == hashToken (mkRefreshJwt mbId tlast)) = none := by
    rw [List.find?_eq_none]
    intro r hr
    obtain ⟨-, -, t', ht', hh⟩ := holder r hr
    simp only [hh, hashToken, beq_iff_eq, Sha256.mk.injEq, mkRefreshJwt, Jwt.mk.injEq]
    intro hcon
    omega
  have hfind : db.find?
      (fun r => r.token_hash == hashToken (mkRefreshJwt mbId tlast))
      = some (freshRefreshRow mbId familyId tlast) := by
    rw [hdb, List.find?_append, hfindOlder]
    simp [freshRefreshRow]
  have hfvt : findValidToken db (hashToken (mkRefreshJwt mbId tlast)) t
      = (some (mbId, familyId), db) := by
    simp only [findValidToken, hfind, freshRefreshRow, Option.isSome_none,
      Bool.false_eq_true, if_false]
    rw [if_neg (by omega)]
  have hcond : (mkRefreshJwt mbId tlast).secret = JWT_SECRET ∧
      (mkRefreshJwt mbId tlast).iss = some "angple" ∧
      t < (mkRefreshJwt mbId tlast).exp := ⟨rfl, rfl, hexp⟩
  have hverify : verifyToken (mkRefreshJwt mbId tlast) t
      = some { sub := mbId, nickname := "", level := 0, email := "" } := by
    unfold verifyToken
    rw [if_pos hcond]
    rfl
  have hmain : rotateRefreshToken db (mkRefreshJwt mbId tlast) nf t
      = (some (mkRefreshJwt mbId t, mbId),
         revokeToken db (hashToken (mkRefreshJwt mbId tlast)) t
           ++ [freshRefreshRow mbId familyId t]) := by
    simp only [rotateRefreshToken, hverify]
    rw [if_neg hmb, hfvt]
    rfl
  refine ⟨hmain, ?_, ?_⟩
  · refine ⟨revokeToken db (hashToken (mkRefreshJwt mbId tlast)) t, rfl, ?_⟩
    intro r hr
    simp only [revokeToken, hdb, List.map_append, List.mem_append] at hr
    rcases hr with h1 | h2
    · obtain ⟨r₀, hr₀, rfl⟩ := List.mem_map.1 h1
      obtain ⟨hf, hm, t', ht', hh⟩ := holder r₀ hr₀
      constructor
      · split <;> simpa using hf
      constructor
      · split <;> simpa using hm
      · exact ⟨t', by omega, by split <;> simpa using hh⟩
    · simp only [List.map_cons, List.map_nil, List.mem_singleton] at h2
      subst h2
      rw [if_pos ⟨rfl, rfl⟩]
      exact ⟨rfl, rfl, tlast, hlt, rfl⟩
  · simp [revokeToken]

theorem rotateIter_spec (mbId familyId : String) (hmb : mbId ≠ "") :
    ∀ (times : List Int) (tlast : Int) (db : List RefreshTokenRow),
      RotationInv mbId familyId tlast db →
      validRotationTimes tlast times = true →
      ∃ tlast' db', rotateIter db (mkRefreshJwt mbId tlast) times
          = some (mkRefreshJwt mbId tlast', db') ∧
        RotationInv mbId familyId tlast' db' ∧
        db'.length = db.length + times.length := by
  intro times
  induction times with
  | nil =>
    intro tlast db hinv _
    exact ⟨tlast, db, rfl, hinv, by simp [rotateIter]⟩
  | cons t ts ih =>
    intro tlast db hinv hvalid
    simp only [validRotationTimes, Bool.and_eq_true, decide_eq_true_eq] at hvalid
    obtain ⟨⟨hlt, hexp⟩, hrest⟩ := hvalid
    obtain ⟨heq, hinv2, hlen⟩ :=
      rotateRefreshToken_step mbId familyId "" tlast t db hmb hinv hlt hexp
    obtain ⟨tlast', db', h1, h2, h3⟩ := ih t
      (revokeToken db (hashToken (mkRefreshJwt mbId tlast)) t
        ++ [freshRefreshRow mbId familyId t]) hinv2 hrest
    refine ⟨tlast', db', ?_, h2, ?_⟩
    · simp only [rotateIter, heq]
      exact h1
    · rw [h3, hlen]
      simp only [List.length_cons]
      omega

/-- C3: when the presented token passes signature verification and store
validation (its hash is stored, unrevoked and unexpired), rotation revokes
the old hash and inserts the new token row with the same familyId as the
old row; consequently, issuing a token into an empty store and rotating N
times at strictly increasing instants within the validity window leaves
N + 1 stored rows, all carrying the original familyId. -/
theorem c3_rotation_preserves_family :
    (∀ (db : List RefreshTokenRow) (oldToken : Jwt) (nf : String) (now : Int)
        (p : JwtPayload) (row : RefreshTokenRow),
      verifyToken oldToken now = some p → p.sub ≠ "" →
      db.find? (fun r => r.token_hash == hashToken oldToken) = some row →
      row.revoked_at = none → ¬ now > row.expires_at →
      rotateRefreshToken db oldToken nf now
        = (some (mkRefreshJwt row.mb_id now, row.mb_id),
           storeRefreshToken (revokeToken db (hashToken oldToken) now)
             (hashToken (mkRefreshJwt row.mb_id now)) row.mb_id row.family_id
             (now + REFRESH_TOKEN_TTL_MS) now)) ∧
    (∀ (mbId familyId : String) (t0 : Int) (times : List Int),
      mbId ≠ "" → validRotationTimes t0 times = true →
      ∃ tok' db',
        rotateIter (generateRefreshToken [] mbId none familyId t0).2.2
          (generateRefreshToken [] mbId none familyId t0).1 times = some (tok', db') ∧
        db'.length = times.length + 1 ∧
        ∀ r ∈ db', r.family_id = familyId) := by
  constructor
  · intro db oldToken nf now p row hv hsub hfind hrev hexp
    have hfvt : findValidToken db (hashToken oldToken) now
        = (some (row.mb_id, row.family_id), db) := by
      simp only [findValidToken, hfind, hrev, Option.isSome_none, Bool.false_eq_true,
        if_false]
      rw [if_neg hexp]
    simp only [rotateRefreshToken, hv]
    rw [if_neg hsub, hfvt]
    rfl
  · intro mbId familyId t0 times hmb hvalid
    have hstart : RotationInv mbId familyId t0
        (generateRefreshToken [] mbId none familyId t0).2.2 :=
      ⟨[], rfl, by simp⟩
    obtain ⟨tlast', db', h1, h2, h3⟩ :=
      rotateIter_spec mbId familyId hmb times t0
        (generateRefreshToken [] mbId none familyId t0).2.2 hstart hvalid
    refine ⟨mkRefreshJwt mbId tlast', db', h1, ?_, rotationInv_family mbId familyId tlast' db' h2⟩
    rw [h3]
    simp [generateRefreshToken, storeRefreshToken]
    omega

theorem c3_rotation_preserves_family_witness :
    verifyToken (mkRefreshJwt "u1" 0) 5
      = some { sub := "u1", nickname := "", level := 0, email := "" } ∧
    ([freshRefreshRow "u1" "fam0" 0].find?
        (fun r => r.token_hash == hashToken (mkRefreshJwt "u1" 0)))
      = some (freshRefreshRow "u1" "fam0" 0) ∧
    rotateRefreshToken [freshRefreshRow "u1" "fam0" 0] (mkRefreshJwt "u1" 0) "nf" 5
      = (some (mkRefreshJwt "u1" 5, "u1"),
         storeRefreshToken
           (revokeToken [freshRefreshRow "u1" "fam0" 0] (hashToken (mkRefreshJwt "u1" 0)) 5)
           (hashToken (mkRefreshJwt "u1" 5)) "u1" "fam0" (5 + REFRESH_TOKEN_TTL_MS) 5) ∧
    validRotationTimes 0 [1, 2] = true ∧
    (∃ tok' db',
      rotateIter (generateRefreshToken [] "u1" none "fam0" 0).2.2
        (generateRefreshToken [] "u1" none "fam0" 0).1 [1, 2] = some (tok', db') ∧
      db'.length = 3 ∧ ∀ r ∈ db', r.family_id = "fam0") := by
  refine ⟨by decide, by decide, ?_, by decide, ?_⟩
  · exact c3_rotation_preserves_family.1 [freshRefreshRow "u1" "fam0" 0]
      (mkRefreshJwt "u1" 0) "nf" 5 { sub := "u1", nickname := "", level := 0, email := "" }
      (freshRefreshRow "u1" "fam0" 0) (by decide) (by decide) (by decide) (by decide)
      (by decide)
  · exact c3_rotation_preserves_family.2 "u1" "fam0" 0 [1, 2] (by decide) (by decide)

end Angple
